import Mathlib

/-!
Verification of the Commute-Check traffic server.

This file shallowly embeds the parts of the repository that the claims are
about:

* `src/traffic.js` — the external directions adapter (`fetchTravelTime`,
  `fetchAllTravelTimes`, `isConfigured`, `ROUTES`);
* `src/db.js` — the reading store (`addReading`, `getHeatmapData`,
  `getHistoricalData`);
* the server file (`src/unnamed/part_001`) — the traffic cache coordinator
  (`trafficCache`, `refreshTrafficData`, `getCurrentTraffic`), the HTTP
  handlers for `/api/crossings` and `POST /api/readings`, the periodic
  scheduler and the admin force-refresh endpoint.

JavaScript is single threaded: an async function runs synchronously up to its
first `await`, and "concurrent" calls are interleavings of such synchronous
prefixes on the event loop.  The coordinator is therefore embedded as a state
machine: each constructor-function below is the synchronous prefix of one
event (a `getCurrentTraffic` call arriving, a scheduler tick, an admin
force-refresh, or an in-flight refresh settling).  Promise resolution is
modelled by recording, per caller, which refresh operation it awaits; when
that operation settles, every such caller receives the settled outcome — this
is exactly the JS promise broadcast semantics.

Machine integers are modelled as `Int`/`Nat` (JS numbers in the source are
integers or epoch milliseconds throughout the modelled code); JSON values of
the one endpoint that coerces (`Number(waitTime)`) are modelled by a small
`BodyVal` type; SQLite's `ROUND(AVG(...))` is modelled over `Rat` with
round-half-away-from-zero, SQLite's rounding rule.
-/

/-- JS `Date` value: epoch milliseconds (`getTime()`) together with the local
calendar fields (`getFullYear()`, `getMonth()+1`, `getDate()`, `getHours()`,
`getMinutes()`, `getSeconds()`) that `db.js` `addReading` writes into the
`recorded_at` column.  `hour` is `Fin 24` because JS `getHours()` ranges over
0..23. -/
structure LocalTimestamp where
  year : Nat
  month : Nat
  day : Nat
  hour : Fin 24
  minute : Nat
  second : Nat
deriving DecidableEq, Repr

structure JsDate where
  ms : Int
  localFields : LocalTimestamp
deriving DecidableEq, Repr

/- ---------------------------------------------------------------------- -/
/- src/traffic.js                                                          -/
/- ---------------------------------------------------------------------- -/

structure RouteInfo where
  origin : String
  destination : String
  waypoint : String
  name : String
deriving DecidableEq, Repr

/-- `ROUTES` from src/traffic.js, as an association list in JS object-key
insertion order (`Object.keys(ROUTES)` enumerates in this order). -/
def ROUTES : List (String × RouteInfo) :=
  [ ("gwb-into", { origin := "40.8509,-73.9630", destination := "40.8500,-73.9400",
                   waypoint := "40.8517,-73.9527", name := "George Washington Bridge" }),
    ("gwb-out", { origin := "40.8500,-73.9400", destination := "40.8509,-73.9630",
                  waypoint := "40.8517,-73.9527", name := "George Washington Bridge" }),
    ("lincoln-into", { origin := "40.7600,-74.0200", destination := "40.7580,-73.9900",
                       waypoint := "40.7590,-74.0020", name := "Lincoln Tunnel" }),
    ("lincoln-out", { origin := "40.7580,-73.9900", destination := "40.7600,-74.0200",
                      waypoint := "40.7590,-74.0020", name := "Lincoln Tunnel" }),
    ("holland-into", { origin := "40.7280,-74.0500", destination := "40.7260,-74.0070",
                       waypoint := "40.7267,-74.0110", name := "Holland Tunnel" }),
    ("holland-out", { origin := "40.7260,-74.0070", destination := "40.7280,-74.0500",
                      waypoint := "40.7267,-74.0110", name := "Holland Tunnel" }) ]

/-- `Object.keys(ROUTES)` — the six monitored crossing ids, in order. -/
def crossingIds : List String := ROUTES.map (·.1)

/-- One leg of a parsed Google-directions response
(`leg.duration.value`, `leg.duration_in_traffic?.value`, `leg.distance.value`,
all non-negative integers in the API). -/
structure Leg where
  durationValue : Nat
  durationInTrafficValue : Option Nat
  distanceValue : Nat
deriving DecidableEq, Repr

structure ApiRoute where
  legs : List Leg
deriving DecidableEq, Repr

/-- The parsed JSON body of a directions response (`data` in the source). -/
structure ApiResponse where
  status : String
  errorMessage : Option String
  routes : List ApiRoute
deriving DecidableEq, Repr

/-- One element of the list `fetchAllTravelTimes` resolves with: either a
success (`waitTime` set, `error` absent) or a per-location failure
(`waitTime` null, `error` set). -/
structure FetchResult where
  crossingId : String
  waitTime : Option Int
  durationText : Option String
  distanceMeters : Option Nat
  error : Option String
  timestamp : JsDate
deriving DecidableEq, Repr

/-- `duration_in_traffic ? duration_in_traffic.value : duration.value`. -/
def legDuration (l : Leg) : Nat :=
  match l.durationInTrafficValue with
  | some v => v
  | none => l.durationValue

/-- `fetchTravelTime` from src/traffic.js.  The network fetch plus JSON parse
is abstracted as `adapter : String → Except String ApiResponse` (a network or
parse failure is an `Except.error`, as a JS throw).  `Math.round(x)` for the
non-negative `totalDurationSeconds / 60` is `(totalDurationSeconds + 30) / 60`
in integer arithmetic.  The source also formats `distanceMiles` as a string
via floating `toFixed(1)`; the model keeps the exact total metres instead
(presentation only, no claim mentions it). -/
def fetchTravelTime (adapter : String → Except String ApiResponse) (nowD : JsDate)
    (crossingId : String) : Except String FetchResult :=
  match ROUTES.lookup crossingId with
  | none => .error ("Unknown crossing: " ++ crossingId)
  | some _ =>
    match adapter crossingId with
    | .error e => .error e
    | .ok data =>
      if data.status ≠ "OK" then .error ("API error: " ++ data.status)
      else
        match data.routes with
        | [] => .error "No routes found"
        | routeData :: _ =>
          if routeData.legs.isEmpty then .error "No route legs found"
          else
            let totalDurationSeconds := (routeData.legs.map legDuration).sum
            let totalDistanceMeters := (routeData.legs.map (·.distanceValue)).sum
            let durationMinutes := (totalDurationSeconds + 30) / 60
            .ok { crossingId := crossingId,
                  waitTime := some (durationMinutes : Int),
                  durationText := some (toString durationMinutes ++ " mins"),
                  distanceMeters := some totalDistanceMeters,
                  error := none,
                  timestamp := nowD }

/-- The per-iteration body of `fetchAllTravelTimes`: the result pushed for one
crossing id (the `try` pushes the fetched result, the `catch` pushes the
null-wait-time entry carrying the error message). -/
def fetchOneEntry (adapter : String → Except String ApiResponse) (nowD : JsDate)
    (crossingId : String) : FetchResult :=
  match fetchTravelTime adapter nowD crossingId with
  | .ok r => r
  | .error e =>
      { crossingId := crossingId, waitTime := none, durationText := none,
        distanceMeters := none, error := some e, timestamp := nowD }

/-- `fetchAllTravelTimes` from src/traffic.js: a sequential loop over
`Object.keys(ROUTES)` accumulating one entry per crossing; every per-location
throw is caught inside the loop, so the function as a whole always resolves
with the accumulated list. -/
def fetchAllTravelTimes (adapter : String → Except String ApiResponse)
    (nowD : JsDate) : List FetchResult :=
  crossingIds.foldl (fun results crossingId =>
    results ++ [fetchOneEntry adapter nowD crossingId]) []

/-- `isConfigured` from src/traffic.js: `!!API_KEY` — false when the key is
absent, and also when it is the (falsy) empty string. -/
def isConfigured (apiKey : Option String) : Bool :=
  match apiKey with
  | none => false
  | some k => k ≠ ""

/- ---------------------------------------------------------------------- -/
/- src/db.js                                                               -/
/- ---------------------------------------------------------------------- -/

/-- A row of the `readings` table.  `addReading` formats the reading's `Date`
as a local `Y-M-D H:M:S` string; SQLite's `strftime` later re-extracts the
same local calendar fields, so `recorded_at` is modelled as those fields. -/
structure DbRow where
  crossingId : String
  waitTime : Int
  recordedAt : LocalTimestamp
deriving DecidableEq, Repr

/-- `addReading` from src/db.js: appends one row (the table is append-only,
`INSERT` with an autoincrement key preserving insertion order). -/
def addReading (rows : List DbRow) (crossingId : String) (waitTime : Int)
    (timestamp : JsDate) : List DbRow :=
  rows ++ [{ crossingId := crossingId, waitTime := waitTime,
             recordedAt := timestamp.localFields }]

/-- Sakamoto's day-of-week congruence for the Gregorian calendar — the value
SQLite's `strftime('%w', recorded_at)` computes from the stored local date
(0 = Sunday .. 6 = Saturday).  Valid for the years ≥ 1 a JS `Date` produces. -/
def dowMonthTable : List Nat := [0, 3, 2, 5, 0, 3, 5, 1, 4, 6, 2, 4]

def dayOfWeek (t : LocalTimestamp) : Nat :=
  let y := if t.month < 3 then t.year - 1 else t.year
  (y + y / 4 - y / 100 + y / 400 + dowMonthTable.getD (t.month - 1) 0 + t.day) % 7

/-- A row of the `getHeatmapData` aggregate query
(`day_of_week`, `hour`, `ROUND(AVG(wait_time))`, `COUNT(*)`). -/
structure HeatRow where
  day_of_week : Nat
  hour : Nat
  avg_time : Int
  sample_count : Nat
deriving DecidableEq, Repr

/-- SQLite `ROUND` to 0 digits: round to nearest, halves away from zero. -/
def roundHalfAwayFromZero (q : Rat) : Int :=
  if 0 ≤ q then ⌊q + 1 / 2⌋ else ⌈q - 1 / 2⌉

/-- The readings of one `(crossing, day-of-week, hour)` group. -/
def bucketGroup (rows : List DbRow) (crossingId : String) (d h : Nat) : List DbRow :=
  rows.filter fun r =>
    r.crossingId == crossingId && dayOfWeek r.recordedAt == d && (r.recordedAt.hour : Nat) == h

/-- `AVG(wait_time)` of a group, as an exact rational. -/
def groupAvg (g : List DbRow) : Rat :=
  ((g.map fun r => (r.waitTime : Rat)).sum) / (g.length : Rat)

/-- The aggregate row for one `(day, hour)` key, when the group is nonempty. -/
def rowFor (rows : List DbRow) (crossingId : String) (d h : Nat) : Option HeatRow :=
  if (bucketGroup rows crossingId d h).isEmpty then none
  else some { day_of_week := d, hour := h,
              avg_time := roundHalfAwayFromZero (groupAvg (bucketGroup rows crossingId d h)),
              sample_count := (bucketGroup rows crossingId d h).length }

/-- All possible `(day_of_week, hour)` keys in `ORDER BY day_of_week, hour`
order.  `day_of_week` is a `% 7` value and `hour` a `getHours()` value, so
every group key of the SQL query lies in this enumeration; keeping exactly the
nonempty groups in this order is the `GROUP BY ... ORDER BY` result. -/
def allBucketKeys : List (Nat × Nat) :=
  (List.range 7).flatMap fun d => (List.range 24).map fun h => (d, h)

/-- The `getHeatmapData` prepared query of src/db.js. -/
def getHeatmapData (rows : List DbRow) (crossingId : String) : List HeatRow :=
  allBucketKeys.filterMap fun k => rowFor rows crossingId k.1 k.2

/-- `dayOrder` from src/db.js — Monday-first remap of storage day indices. -/
def dayOrder : List Nat := [1, 2, 3, 4, 5, 6, 0]

def dayNames : List String := ["Mon", "Tue", "Wed", "Thu", "Fri", "Sat", "Sun"]

/-- The `hours` array `[0..23]` the source builds with a loop. -/
def hoursList : List Nat := List.range 24

/-- One element pushed onto `heatmap` by `getHistoricalData`. -/
structure HeatCell where
  day : String
  dayIndex : Nat
  hour : Nat
  avgTime : Option Int
  sampleCount : Nat
  label : String
deriving DecidableEq, Repr

/-- The 12-hour clock display label (`${displayHour}${ampm}`). -/
def hourLabel (h : Nat) : String :=
  let displayHour := if h == 0 then 12 else if h > 12 then h - 12 else h
  let ampm := if h ≥ 12 then "pm" else "am"
  toString displayHour ++ ampm

/-- The cell pushed for `(displayIndex, dbDayIndex, hour)`:
`rows.find(...)` then `row ? row.avg_time : null` / `row ? row.sample_count : 0`. -/
def mkCell (hrows : List HeatRow) (displayIndex dbDayIndex h : Nat) : HeatCell :=
  let row := hrows.find? fun r => r.day_of_week == dbDayIndex && r.hour == h
  { day := dayNames.getD displayIndex "",
    dayIndex := displayIndex,
    hour := h,
    avgTime := row.map (·.avg_time),
    sampleCount := (row.map (·.sample_count)).getD 0,
    label := hourLabel h }

structure HistoricalData where
  hours : List Nat
  days : List String
  heatmap : List HeatCell
deriving DecidableEq, Repr

/-- `getHistoricalData` from src/db.js: the raw aggregate re-ordered
Monday-first, with one cell for every `(day, hour)` pair. -/
def getHistoricalData (rows : List DbRow) (crossingId : String) : HistoricalData :=
  let hrows := getHeatmapData rows crossingId
  { hours := hoursList,
    days := dayNames,
    heatmap := dayOrder.enum.flatMap fun di => hoursList.map fun h => mkCell hrows di.1 di.2 h }

/- ---------------------------------------------------------------------- -/
/- Server (src/unnamed/part_001): crossing metadata and helpers            -/
/- ---------------------------------------------------------------------- -/

structure CrossingMeta where
  id : String
  name : String
  direction : String
  area : String
  icon : String
deriving DecidableEq, Repr

def CROSSINGS : List CrossingMeta :=
  [ { id := "gwb-into", name := "George Washington Bridge",
      direction := "Into Manhattan", area := "Upper Manhattan", icon := "🌉" },
    { id := "gwb-out", name := "George Washington Bridge",
      direction := "Out of Manhattan", area := "To New Jersey", icon := "🌉" },
    { id := "lincoln-into", name := "Lincoln Tunnel",
      direction := "Into Manhattan", area := "Midtown", icon := "🚇" },
    { id := "lincoln-out", name := "Lincoln Tunnel",
      direction := "Out of Manhattan", area := "To New Jersey", icon := "🚇" },
    { id := "holland-into", name := "Holland Tunnel",
      direction := "Into Manhattan", area := "Lower Manhattan", icon := "🚗" },
    { id := "holland-out", name := "Holland Tunnel",
      direction := "Out of Manhattan", area := "To New Jersey", icon := "🚗" } ]

/-- `getStatus` from the server: `(status, statusClass)`. -/
def getStatus (waitTime : Int) : String × String :=
  if waitTime ≤ 15 then ("Light", "good")
  else if waitTime ≤ 25 then ("Moderate", "moderate")
  else ("Heavy", "heavy")

/-- `CACHE_TTL = 10 * 60 * 1000` milliseconds. -/
def CACHE_TTL : Int := 10 * 60 * 1000

/- ---------------------------------------------------------------------- -/
/- The cache coordinator as an event-loop state machine                    -/
/- ---------------------------------------------------------------------- -/

/-- Outcome a refresh operation settles with: `refreshTrafficData` either
resolves with the fetched result list or rejects (its `catch` rethrows). -/
inductive RefreshOutcome where
  | success (results : List FetchResult)
  | failure (err : String)
deriving DecidableEq, Repr

/-- What one `getCurrentTraffic` caller has observed so far:
returned cached data synchronously, is awaiting refresh operation `p`, or has
received the outcome `p` settled with. -/
inductive CallerStatus where
  | immediate (data : List FetchResult)
  | waitingOn (p : Nat)
  | resolved (out : RefreshOutcome)
deriving DecidableEq, Repr

/-- The server's mutable state plus instrumentation.

Source state: `cacheData`/`lastUpdated`/`refreshPromise` are the three fields
of `trafficCache`, and `store` is the `readings` table.

Instrumentation (not source variables, used to state the claims):
`inFlight` — the refresh operations started and not yet settled;
`nextRefreshId` — allocator for refresh-operation identities;
`fetchCount` — how many `fetchAllTravelTimes` batches have been started;
`callers` — one entry per `getCurrentTraffic` call, in arrival order;
`nextCallerId` — allocator for caller identities. -/
structure ServerState where
  cacheData : Option (List FetchResult)
  lastUpdated : Option JsDate
  refreshPromise : Option Nat
  store : List DbRow
  inFlight : List Nat
  nextRefreshId : Nat
  fetchCount : Nat
  callers : List (Nat × CallerStatus)
  nextCallerId : Nat
deriving DecidableEq, Repr

/-- The process-start state: `trafficCache = { data: null, lastUpdated: null,
refreshPromise: null }` and an empty readings table. -/
def initialState : ServerState :=
  { cacheData := none, lastUpdated := none, refreshPromise := none,
    store := [], inFlight := [], nextRefreshId := 0, fetchCount := 0,
    callers := [], nextCallerId := 0 }

/-- The freshness test of `getCurrentTraffic`:
`trafficCache.data && cacheAge < CACHE_TTL`, where
`cacheAge = lastUpdated ? now - lastUpdated.getTime() : Infinity`. -/
def freshCheck (data : Option (List FetchResult)) (lastUpdated : Option JsDate)
    (now : Int) : Bool :=
  match data, lastUpdated with
  | some _, some t => decide (now - t.ms < CACHE_TTL)
  | _, _ => false

/-- A `getCurrentTraffic()` call arriving at time `now` (its synchronous
prefix, lines 143-165 of the server file): fresh cache — return the cached
data at once; refresh already in flight (`trafficCache.refreshPromise` set) —
await that promise; otherwise start a new refresh (one
`fetchAllTravelTimes` batch), store its promise in the marker, and await it. -/
def getCurrentTrafficCall (s : ServerState) (now : Int) : ServerState :=
  if freshCheck s.cacheData s.lastUpdated now then
    { s with callers := s.callers ++ [(s.nextCallerId, CallerStatus.immediate (s.cacheData.getD []))],
             nextCallerId := s.nextCallerId + 1 }
  else
    match s.refreshPromise with
    | some p =>
        { s with callers := s.callers ++ [(s.nextCallerId, CallerStatus.waitingOn p)],
                 nextCallerId := s.nextCallerId + 1 }
    | none =>
        { s with refreshPromise := some s.nextRefreshId,
                 inFlight := s.nextRefreshId :: s.inFlight,
                 fetchCount := s.fetchCount + 1,
                 nextRefreshId := s.nextRefreshId + 1,
                 callers := s.callers ++ [(s.nextCallerId, CallerStatus.waitingOn s.nextRefreshId)],
                 nextCallerId := s.nextCallerId + 1 }

/-- A scheduler tick (the `setInterval` body): it calls `refreshTrafficData()`
directly — a new fetch batch starts, and `trafficCache.refreshPromise` is
neither consulted nor set. -/
def schedulerTick (s : ServerState) : ServerState :=
  { s with inFlight := s.nextRefreshId :: s.inFlight,
           fetchCount := s.fetchCount + 1,
           nextRefreshId := s.nextRefreshId + 1 }

/-- `POST /api/refresh` (admin force refresh): like the scheduler it awaits
`refreshTrafficData()` directly, without the in-flight marker. -/
def adminForceRefresh (s : ServerState) : ServerState :=
  schedulerTick s

/-- The readings persisted by a successful `refreshTrafficData`: the loop
`for (result of results) if (result.waitTime !== null) db.addReading(...)`. -/
def readingsOfResults (results : List FetchResult) : List DbRow :=
  results.foldl (fun acc r =>
    match r.waitTime with
    | some w => addReading acc r.crossingId w r.timestamp
    | none => acc) []

/-- A caller's status after refresh `p` settles with outcome `out`: awaiting
the settled promise means receiving its outcome. -/
def resolveWaiter (p : Nat) (out : RefreshOutcome) (e : Nat × CallerStatus) :
    Nat × CallerStatus :=
  if e.2 = CallerStatus.waitingOn p then (e.1, CallerStatus.resolved out) else e

/-- Refresh operation `p` settles at time `nowD` with outcome `out`
(the continuation of `refreshTrafficData` after `await fetchAllTravelTimes`,
plus the `.finally` attached in `getCurrentTraffic`).

Success: the readings with non-null wait time are stored, then the whole
`trafficCache` object is replaced by `{ data: results, lastUpdated: new
Date() }` — which drops the `refreshPromise` field (lines 129-132); the
`.finally` then (re)sets it to null.  Failure: no cache field is written and
no reading stored; the `.finally` clears the marker when `p` is the marked
read-triggered refresh (direct scheduler/admin refreshes have no `.finally`).
In both cases every caller awaiting `p` receives the outcome. -/
def refreshSettle (s : ServerState) (p : Nat) (out : RefreshOutcome)
    (nowD : JsDate) : ServerState :=
  if p ∈ s.inFlight then
    match out with
    | .success results =>
        { s with inFlight := s.inFlight.erase p,
                 callers := s.callers.map (resolveWaiter p out),
                 store := s.store ++ readingsOfResults results,
                 cacheData := some results,
                 lastUpdated := some nowD,
                 refreshPromise := none }
    | .failure _ =>
        { s with inFlight := s.inFlight.erase p,
                 callers := s.callers.map (resolveWaiter p out),
                 refreshPromise := if s.refreshPromise = some p then none
                                   else s.refreshPromise }
  else s

/-- The list of callers that join one shared refresh `p`: ids
`firstId, firstId+1, ...`, each awaiting `p`. -/
def joinList (firstId p : Nat) : Nat → List (Nat × CallerStatus)
  | 0 => []
  | n + 1 => (firstId, CallerStatus.waitingOn p) :: joinList (firstId + 1) p n

/- ---------------------------------------------------------------------- -/
/- GET /api/crossings and POST /api/readings                               -/
/- ---------------------------------------------------------------------- -/

/-- The JSON value a successful or failed current-conditions entry renders
`waitTime` as: a number of minutes, or the string `'--'`. -/
inductive WaitField where
  | mins (n : Int)
  | dashes
deriving DecidableEq, Repr

/-- One element of the `/api/crossings` response.  `updatedAt` is the
serialized date (modelled by its epoch milliseconds); `error` is the optional
per-location error message (absent on success and on mock data). -/
structure ApiEntry where
  id : String
  name : String
  direction : String
  area : String
  icon : String
  waitTime : WaitField
  status : String
  statusClass : String
  updatedAt : Int
  error : Option String
deriving DecidableEq, Repr

/-- The mock-branch entry for one crossing: `delay = Math.floor(Math.random()
* 31)` is passed in as `randFloor` (a value in 0..30), `waitTime = 10 +
delay`, statuses from `getStatus`, `updatedAt = new Date()`. -/
def mockEntry (c : CrossingMeta) (randFloor : Nat) (now : Int) : ApiEntry :=
  let waitTime : Int := 10 + (randFloor : Int)
  let st := getStatus waitTime
  { id := c.id, name := c.name, direction := c.direction, area := c.area,
    icon := c.icon, waitTime := WaitField.mins waitTime,
    status := st.1, statusClass := st.2, updatedAt := now, error := none }

/-- The full mock response: one synthesized entry per crossing, one
`Math.random()` draw per iteration (indexed by position). -/
def mockCrossings (rand : Nat → Nat) (now : Int) : List ApiEntry :=
  CROSSINGS.enum.map fun ic => mockEntry ic.2 (rand ic.1) now

/-- The configured-branch rendering of one crossing from the fetched data:
`trafficData.find(...)`, null wait time becomes `'--'`/`Unknown` with the
per-location error, otherwise `getStatus`; `updatedAt` is
`trafficCache.lastUpdated ?? new Date()`. -/
def renderEntry (lastUpdated : Option JsDate) (now : Int)
    (trafficData : List FetchResult) (c : CrossingMeta) : ApiEntry :=
  let tr := trafficData.find? fun t => t.crossingId == c.id
  match tr.bind (·.waitTime) with
  | none =>
      { id := c.id, name := c.name, direction := c.direction, area := c.area,
        icon := c.icon, waitTime := WaitField.dashes,
        status := "Unknown", statusClass := "unknown",
        updatedAt := (lastUpdated.map (·.ms)).getD now,
        error := tr.bind (·.error) }
  | some w =>
      let st := getStatus w
      { id := c.id, name := c.name, direction := c.direction, area := c.area,
        icon := c.icon, waitTime := WaitField.mins w,
        status := st.1, statusClass := st.2,
        updatedAt := (lastUpdated.map (·.ms)).getD now,
        error := none }

/-- The `GET /api/crossings` handler.  Unconfigured adapter: respond with the
synthesized mock list, touching neither the cache nor the store.  Configured:
call `getCurrentTraffic()`; with a fresh cache the response is rendered from
the cached data at once, otherwise the response is produced only when the
awaited refresh settles (`none` here — the pending part is the settle step). -/
def handleCrossings (apiKey : Option String) (rand : Nat → Nat) (now : Int)
    (s : ServerState) : Option (List ApiEntry) × ServerState :=
  if isConfigured apiKey = false then
    (some (mockCrossings rand now), s)
  else
    let s' := getCurrentTrafficCall s now
    if freshCheck s.cacheData s.lastUpdated now then
      (some (CROSSINGS.map (renderEntry s.lastUpdated now (s.cacheData.getD []))), s')
    else
      (none, s')

/-- A JSON value submitted as `waitTime` in a `POST /api/readings` body:
a number, a boolean, or JSON null.  (`Number()` of a number is the identity;
`Number(true) = 1`, `Number(false) = 0`.  String bodies also pass through
`Number()` in the source; their parse is not modelled.) -/
inductive BodyVal where
  | num (q : Rat)
  | boolean (b : Bool)
  | jnull
deriving DecidableEq, Repr

/-- JS `Number()` on the modelled body values (never NaN on these). -/
def jsNumber : BodyVal → Rat
  | .num q => q
  | .boolean b => if b then 1 else 0
  | .jnull => 0

/-- The `POST /api/readings` handler (validation then `db.addReading`).
`crossingId` is `none` when absent (`undefined`); non-string ids are rejected
by the `typeof` check and are outside the model.  Returns whether the request
succeeded, together with the readings table afterwards. -/
def postReading (store : List DbRow) (crossingId : Option String)
    (waitTime : Option BodyVal) (nowD : JsDate) : Bool × List DbRow :=
  match crossingId with
  | none => (false, store)
  | some cid =>
    if cid = "" then (false, store)
    else if (CROSSINGS.find? fun c => c.id == cid).isNone then (false, store)
    else
      match waitTime with
      | none => (false, store)
      | some BodyVal.jnull => (false, store)
      | some v =>
        let waitTimeNum := jsNumber v
        if ¬(waitTimeNum.den = 1) ∨ waitTimeNum < 0 ∨ waitTimeNum > 300 then
          (false, store)
        else
          (true, addReading store cid waitTimeNum.num nowD)

/-- The callers of `joinList` after their shared refresh settled with `out`. -/
def resolvedList (firstId : Nat) (out : RefreshOutcome) : Nat → List (Nat × CallerStatus)
  | 0 => []
  | n + 1 => (firstId, CallerStatus.resolved out) :: resolvedList (firstId + 1) out n

/-- A concrete date (2024-01-01 08:00:00 local, epoch-ms 0) used to
instantiate theorems at concrete inputs. -/
def D0 : JsDate :=
  { ms := 0,
    localFields := { year := 2024, month := 1, day := 1, hour := 8,
                     minute := 0, second := 0 } }

/-- A concrete successful fetch result for the first crossing. -/
def sampleResult : FetchResult :=
  { crossingId := "gwb-into", waitTime := some 12,
    durationText := some "12 mins", distanceMeters := some 1000,
    error := none, timestamp := D0 }

/-- A concrete errored fetch result for the second crossing. -/
def errorResult : FetchResult :=
  { crossingId := "gwb-out", waitTime := none, durationText := none,
    distanceMeters := none, error := some "API error: OVER_QUERY_LIMIT",
    timestamp := D0 }

/-- A state with one refresh operation (id 0) in flight. -/
def oneInFlightState : ServerState :=
  { initialState with inFlight := [0], nextRefreshId := 1, fetchCount := 1 }

/-- A state with a read-triggered refresh (id 0) in flight, marked in
`refreshPromise`, with its triggering caller 0 and a joined waiter 1. -/
def failWitnessState : ServerState :=
  { initialState with
      inFlight := [0], refreshPromise := some 0,
      callers := [(0, CallerStatus.waitingOn 0), (1, CallerStatus.waitingOn 0)],
      nextCallerId := 2, nextRefreshId := 1, fetchCount := 1 }

/-- A state whose cache holds `[sampleResult]` refreshed at epoch-ms 0. -/
def freshWitnessState : ServerState :=
  { initialState with
      cacheData := some [sampleResult], lastUpdated := some D0,
      fetchCount := 1, nextRefreshId := 1 }

/- ---------------------------------------------------------------------- -/
/- General helper lemmas                                                   -/
/- ---------------------------------------------------------------------- -/

theorem foldl_push_map {α β : Type} (f : α → β) (xs : List α) :
    ∀ acc : List β, xs.foldl (fun results x => results ++ [f x]) acc = acc ++ xs.map f := by
  induction xs with
  | nil => intro acc; simp
  | cons x xs ih => intro acc; simp [ih]

theorem lt_length_of_getElem?_some {α : Type} {l : List α} {i : Nat} {a : α}
    (h : l[i]? = some a) : i < l.length := by
  by_contra hlt
  rw [List.getElem?_eq_none (by omega)] at h
  cases h

theorem flatMap_map_getElem {α β γ : Type} (f : α → β → γ) (ys : List β) (xs : List α) :
    ∀ (i j : Nat) (x : α) (y : β), xs[i]? = some x → ys[j]? = some y →
      (xs.flatMap fun a => ys.map fun b => f a b)[i * ys.length + j]? = some (f x y) := by
  induction xs with
  | nil => intro i j x y hx _; simp at hx
  | cons a xs ih =>
    intro i j x y hx hy
    rw [List.flatMap_cons]
    cases i with
    | zero =>
      rw [List.getElem?_cons_zero, Option.some.injEq] at hx
      subst hx
      rw [Nat.zero_mul, Nat.zero_add,
          List.getElem?_append_left (by simpa using lt_length_of_getElem?_some hy),
          List.getElem?_map, hy]
      rfl
    | succ i =>
      rw [List.getElem?_cons_succ] at hx
      have hix : (i + 1) * ys.length + j = (ys.map fun b => f a b).length + (i * ys.length + j) := by
        simp [Nat.succ_mul]; omega
      rw [hix, List.getElem?_append_right (Nat.le_add_right _ _), Nat.add_sub_cancel_left]
      exact ih i j x y hx hy

theorem find?_filterMap_keyed {κ α : Type} [DecidableEq κ]
    (row : κ → Option α) (p : α → Bool) (k0 : κ)
    (hentry : ∀ k a, row k = some a → (p a = true ↔ k = k0)) :
    ∀ keys : List κ, keys.Nodup → k0 ∈ keys →
      (keys.filterMap row).find? p = row k0 := by
  intro keys
  induction keys with
  | nil => intro _ h; cases h
  | cons k ks ih =>
    intro hnd hmem
    rw [List.filterMap_cons]
    cases hrow : row k with
    | none =>
      by_cases hk : k = k0
      · subst hk
        rw [hrow]
        refine List.find?_eq_none.mpr ?_
        intro a ha
        rcases List.mem_filterMap.mp ha with ⟨k', hk', hrow'⟩
        intro hpa
        have : k' = k := (hentry k' a hrow').mp hpa
        exact (List.nodup_cons.mp hnd).1 (this ▸ hk')
      · have hk0 : k0 ∈ ks := by
          rcases List.mem_cons.mp hmem with h | h
          · exact absurd h.symm hk
          · exact h
        exact ih (List.nodup_cons.mp hnd).2 hk0
    | some a =>
      by_cases hk : k = k0
      · subst hk
        have hpa : p a = true := (hentry _ _ hrow).mpr rfl
        rw [List.find?_cons_of_pos _ hpa, hrow]
      · have hpa : ¬ p a = true := fun hpa => hk ((hentry _ _ hrow).mp hpa)
        rw [List.find?_cons_of_neg _ hpa]
        have hk0 : k0 ∈ ks := by
          rcases List.mem_cons.mp hmem with h | h
          · exact absurd h.symm hk
          · exact h
        exact ih (List.nodup_cons.mp hnd).2 hk0

/- ---------------------------------------------------------------------- -/
/- Model-specific lemmas                                                   -/
/- ---------------------------------------------------------------------- -/

theorem fetchAllTravelTimes_eq_map (adapter : String → Except String ApiResponse)
    (nowD : JsDate) :
    fetchAllTravelTimes adapter nowD = crossingIds.map (fetchOneEntry adapter nowD) := by
  simpa [fetchAllTravelTimes] using
    foldl_push_map (fetchOneEntry adapter nowD) crossingIds []

theorem fetchTravelTime_ok_shape (adapter : String → Except String ApiResponse)
    (nowD : JsDate) (cid : String) (r : FetchResult)
    (h : fetchTravelTime adapter nowD cid = .ok r) :
    r.crossingId = cid ∧ ∃ w, r.waitTime = some w := by
  unfold fetchTravelTime at h
  split at h
  · simp at h
  · split at h
    · simp at h
    · split at h
      · simp at h
      · split at h
        · simp at h
        · split at h
          · simp at h
          · injection h with h2
            subst h2
            exact ⟨rfl, _, rfl⟩

theorem readingsOfResults_eq (results : List FetchResult) :
    readingsOfResults results =
      results.filterMap (fun r => r.waitTime.map fun w =>
        ({ crossingId := r.crossingId, waitTime := w,
           recordedAt := r.timestamp.localFields } : DbRow)) := by
  have aux : ∀ (rs : List FetchResult) (acc : List DbRow),
      rs.foldl (fun acc r =>
        match r.waitTime with
        | some w => addReading acc r.crossingId w r.timestamp
        | none => acc) acc =
      acc ++ rs.filterMap (fun r => r.waitTime.map fun w =>
        ({ crossingId := r.crossingId, waitTime := w,
           recordedAt := r.timestamp.localFields } : DbRow)) := by
    intro rs
    induction rs with
    | nil => intro acc; simp
    | cons r rs ih =>
      intro acc
      rw [List.foldl_cons, ih, List.filterMap_cons]
      cases hw : r.waitTime with
      | none => simp [hw]
      | some w => simp [hw, addReading]
  simpa [readingsOfResults] using aux results []

theorem joinList_all_waiting (p : Nat) :
    ∀ (n firstId : Nat) (e : Nat × CallerStatus),
      e ∈ joinList firstId p n → e.2 = CallerStatus.waitingOn p := by
  intro n
  induction n with
  | zero => intro fid e h; cases h
  | succ n ih =>
    intro fid e h
    rcases List.mem_cons.mp h with h | h
    · rw [h]
    · exact ih _ e h

theorem resolvedList_all (out : RefreshOutcome) :
    ∀ (n firstId : Nat) (e : Nat × CallerStatus),
      e ∈ resolvedList firstId out n → e.2 = CallerStatus.resolved out := by
  intro n
  induction n with
  | zero => intro fid e h; cases h
  | succ n ih =>
    intro fid e h
    rcases List.mem_cons.mp h with h | h
    · rw [h]
    · exact ih _ e h

theorem joinList_map_resolve (p : Nat) (out : RefreshOutcome) :
    ∀ (n firstId : Nat),
      (joinList firstId p n).map (resolveWaiter p out) = resolvedList firstId out n := by
  intro n
  induction n with
  | zero => intro fid; rfl
  | succ n ih =>
    intro fid
    simp only [joinList, resolvedList, List.map_cons, ih]
    simp [resolveWaiter]

theorem foldCalls_join (ts : List Int) :
    ∀ (s : ServerState) (p : Nat), s.refreshPromise = some p →
      (∀ t ∈ ts, freshCheck s.cacheData s.lastUpdated t = false) →
      ts.foldl getCurrentTrafficCall s =
        { s with callers := s.callers ++ joinList s.nextCallerId p ts.length,
                 nextCallerId := s.nextCallerId + ts.length } := by
  induction ts with
  | nil => intro s p _ _; simp [joinList]
  | cons t ts ih =>
    intro s p hp hst
    have hfr : freshCheck s.cacheData s.lastUpdated t = false :=
      hst t (List.mem_cons_self t ts)
    have hstep : getCurrentTrafficCall s t =
        { s with callers := s.callers ++ [(s.nextCallerId, CallerStatus.waitingOn p)],
                 nextCallerId := s.nextCallerId + 1 } := by
      simp [getCurrentTrafficCall, hfr, hp]
    have ihs := ih { s with callers := s.callers ++ [(s.nextCallerId, CallerStatus.waitingOn p)], nextCallerId := s.nextCallerId + 1 } p hp (fun u hu => hst u (List.mem_cons_of_mem t hu))
    rw [List.foldl_cons, hstep, ihs]
    simp [joinList, List.append_assoc, Nat.add_comm, Nat.add_assoc, Nat.add_left_comm]


/- ---------------------------------------------------------------------- -/
/- Claim theorems                                                          -/
/- ---------------------------------------------------------------------- -/

/-- C4: for every run of `fetchAllTravelTimes` (any adapter behaviour), the
operation always resolves with one entry per monitored location, in order;
the entry for location `i` depends only on that location's own fetch and is
either a successful entry with an integer wait time or a failure entry with
null wait time carrying that location's error message.  In particular one
location's failure does not abort the others and the batch never rejects as a
whole. -/
theorem fetchAllTravelTimes_isolates_failures
    (adapter : String → Except String ApiResponse) (nowD : JsDate)
    (i : Nat) (hi : i < crossingIds.length) :
    (fetchAllTravelTimes adapter nowD).length = crossingIds.length ∧
    ∃ r, (fetchAllTravelTimes adapter nowD)[i]? = some r ∧
      r.crossingId = crossingIds[i] ∧
      ((∃ w, r.waitTime = some w ∧
          fetchTravelTime adapter nowD crossingIds[i] = .ok r) ∨
       (∃ e, r.waitTime = none ∧ r.error = some e ∧
          fetchTravelTime adapter nowD crossingIds[i] = .error e)) := by
  rw [fetchAllTravelTimes_eq_map]
  refine ⟨by simp, fetchOneEntry adapter nowD crossingIds[i], ?_, ?_, ?_⟩
  · rw [List.getElem?_map, List.getElem?_eq_getElem hi]
    rfl
  · unfold fetchOneEntry
    cases hft : fetchTravelTime adapter nowD crossingIds[i] with
    | ok r => exact (fetchTravelTime_ok_shape adapter nowD _ r hft).1
    | error e => rfl
  · unfold fetchOneEntry
    cases hft : fetchTravelTime adapter nowD crossingIds[i] with
    | ok r =>
      rcases fetchTravelTime_ok_shape adapter nowD _ r hft with ⟨_, w, hw⟩
      exact Or.inl ⟨w, hw, rfl⟩
    | error e => exact Or.inr ⟨e, rfl, rfl, rfl⟩

/-- Witness for C4 at a concrete failing adapter and location index 0. -/
theorem fetchAllTravelTimes_isolates_failures_witness :
    (0 < crossingIds.length) ∧
    ((fetchAllTravelTimes (fun _ => .error "network down") D0).length = crossingIds.length ∧
     ∃ r, (fetchAllTravelTimes (fun _ => .error "network down") D0)[0]? = some r ∧
       r.crossingId = crossingIds[0] ∧
       ((∃ w, r.waitTime = some w ∧
           fetchTravelTime (fun _ => .error "network down") D0 crossingIds[0] = .ok r) ∨
        (∃ e, r.waitTime = none ∧ r.error = some e ∧
           fetchTravelTime (fun _ => .error "network down") D0 crossingIds[0] = .error e))) :=
  ⟨by decide,
   fetchAllTravelTimes_isolates_failures (fun _ => .error "network down") D0 0 (by decide)⟩

/-- C6: when a refresh settles successfully, exactly the results with a
non-null wait time are appended to the reading store — one reading per such
location, carrying that location's id, wait time, and the result's timestamp
(its local calendar fields, as `addReading` stores them); results whose fetch
errored (null wait time) are not persisted.  The cache is replaced by the new
results and timestamp. -/
theorem successful_refresh_persists_nonnull_results (s : ServerState) (p : Nat)
    (results : List FetchResult) (nowD : JsDate) (hp : p ∈ s.inFlight) :
    (refreshSettle s p (RefreshOutcome.success results) nowD).store =
      s.store ++ results.filterMap (fun r => r.waitTime.map fun w =>
        ({ crossingId := r.crossingId, waitTime := w,
           recordedAt := r.timestamp.localFields } : DbRow)) ∧
    (refreshSettle s p (RefreshOutcome.success results) nowD).cacheData = some results ∧
    (refreshSettle s p (RefreshOutcome.success results) nowD).lastUpdated = some nowD := by
  rw [refreshSettle, if_pos hp]
  exact ⟨by simp [readingsOfResults_eq], rfl, rfl⟩

/-- Witness for C6: one successful and one errored result; only the
successful one is persisted. -/
theorem successful_refresh_persists_witness :
    (0 ∈ oneInFlightState.inFlight) ∧
    ((refreshSettle oneInFlightState 0
        (RefreshOutcome.success [sampleResult, errorResult]) D0).store =
      oneInFlightState.store ++
        [sampleResult, errorResult].filterMap (fun r => r.waitTime.map fun w =>
          ({ crossingId := r.crossingId, waitTime := w,
             recordedAt := r.timestamp.localFields } : DbRow)) ∧
     (refreshSettle oneInFlightState 0
        (RefreshOutcome.success [sampleResult, errorResult]) D0).cacheData =
      some [sampleResult, errorResult] ∧
     (refreshSettle oneInFlightState 0
        (RefreshOutcome.success [sampleResult, errorResult]) D0).lastUpdated = some D0) :=
  ⟨by decide,
   successful_refresh_persists_nonnull_results oneInFlightState 0
     [sampleResult, errorResult] D0 (by decide)⟩

/-- C3: when a refresh settles with a failure, the cache's data and
last-refreshed timestamp and the reading store are left exactly as they were;
if the failed refresh was the one marked in `trafficCache.refreshPromise`,
the marker is cleared (the `.finally`), so a later stale call can start a new
refresh; and every caller awaiting that refresh — the caller that triggered
it and every joined waiter — receives the failure. -/
theorem failed_refresh_preserves_cache (s : ServerState) (p : Nat) (err : String)
    (nowD : JsDate) (hp : p ∈ s.inFlight) :
    (refreshSettle s p (RefreshOutcome.failure err) nowD).cacheData = s.cacheData ∧
    (refreshSettle s p (RefreshOutcome.failure err) nowD).lastUpdated = s.lastUpdated ∧
    (refreshSettle s p (RefreshOutcome.failure err) nowD).store = s.store ∧
    (s.refreshPromise = some p →
      (refreshSettle s p (RefreshOutcome.failure err) nowD).refreshPromise = none) ∧
    ∀ c : Nat, (c, CallerStatus.waitingOn p) ∈ s.callers →
      (c, CallerStatus.resolved (RefreshOutcome.failure err)) ∈
        (refreshSettle s p (RefreshOutcome.failure err) nowD).callers := by
  rw [refreshSettle, if_pos hp]
  refine ⟨rfl, rfl, rfl, fun hm => by simp [hm], fun c hc => ?_⟩
  have hmem := List.mem_map_of_mem (resolveWaiter p (RefreshOutcome.failure err)) hc
  simpa [resolveWaiter] using hmem

/-- Witness for C3: a failed refresh with a triggering caller and a joined
waiter, both notified; cache and store untouched; marker cleared. -/
theorem failed_refresh_preserves_cache_witness :
    (0 ∈ failWitnessState.inFlight) ∧
    ((refreshSettle failWitnessState 0
        (RefreshOutcome.failure "API error: OVER_QUERY_LIMIT") D0).cacheData =
          failWitnessState.cacheData ∧
     (refreshSettle failWitnessState 0
        (RefreshOutcome.failure "API error: OVER_QUERY_LIMIT") D0).lastUpdated =
          failWitnessState.lastUpdated ∧
     (refreshSettle failWitnessState 0
        (RefreshOutcome.failure "API error: OVER_QUERY_LIMIT") D0).store =
          failWitnessState.store ∧
     (failWitnessState.refreshPromise = some 0 →
      (refreshSettle failWitnessState 0
        (RefreshOutcome.failure "API error: OVER_QUERY_LIMIT") D0).refreshPromise = none) ∧
     ∀ c : Nat, (c, CallerStatus.waitingOn 0) ∈ failWitnessState.callers →
       (c, CallerStatus.resolved (RefreshOutcome.failure "API error: OVER_QUERY_LIMIT")) ∈
         (refreshSettle failWitnessState 0
           (RefreshOutcome.failure "API error: OVER_QUERY_LIMIT") D0).callers) :=
  ⟨by decide,
   failed_refresh_preserves_cache failWitnessState 0 "API error: OVER_QUERY_LIMIT" D0 (by decide)⟩

/-- C5: a `getCurrentTraffic` call while cached data exists and its age is
strictly below the 10-minute TTL returns the cached results synchronously:
the caller's record is `immediate` with the cached data (it never awaits any
refresh), and nothing changes besides appending that record — in particular
no fetch batch starts, nothing new is in flight, the marker is untouched, and
the store is untouched. -/
theorem fresh_cache_read_is_passive (s : ServerState) (now : Int)
    (d : List FetchResult) (hd : s.cacheData = some d)
    (hfresh : freshCheck s.cacheData s.lastUpdated now = true) :
    getCurrentTrafficCall s now =
      { s with callers := s.callers ++ [(s.nextCallerId, CallerStatus.immediate d)],
               nextCallerId := s.nextCallerId + 1 } ∧
    (getCurrentTrafficCall s now).fetchCount = s.fetchCount ∧
    (getCurrentTrafficCall s now).inFlight = s.inFlight ∧
    (getCurrentTrafficCall s now).refreshPromise = s.refreshPromise ∧
    (getCurrentTrafficCall s now).store = s.store := by
  rw [hd] at hfresh
  have h1 : getCurrentTrafficCall s now =
      { s with callers := s.callers ++ [(s.nextCallerId, CallerStatus.immediate d)],
               nextCallerId := s.nextCallerId + 1 } := by
    simp [getCurrentTrafficCall, hd, hfresh]
  exact ⟨h1, by rw [h1], by rw [h1], by rw [h1], by rw [h1]⟩

/-- Witness for C5 at a concrete fresh state (cache refreshed at epoch-ms 0,
read at ms 1000: age one second, far below the 10-minute TTL). -/
theorem fresh_cache_read_is_passive_witness :
    (freshWitnessState.cacheData = some [sampleResult]) ∧
    (freshCheck freshWitnessState.cacheData freshWitnessState.lastUpdated 1000 = true) ∧
    (getCurrentTrafficCall freshWitnessState 1000 =
      { freshWitnessState with
          callers := freshWitnessState.callers ++
            [(freshWitnessState.nextCallerId, CallerStatus.immediate [sampleResult])],
          nextCallerId := freshWitnessState.nextCallerId + 1 } ∧
     (getCurrentTrafficCall freshWitnessState 1000).fetchCount = freshWitnessState.fetchCount ∧
     (getCurrentTrafficCall freshWitnessState 1000).inFlight = freshWitnessState.inFlight ∧
     (getCurrentTrafficCall freshWitnessState 1000).refreshPromise = freshWitnessState.refreshPromise ∧
     (getCurrentTrafficCall freshWitnessState 1000).store = freshWitnessState.store) :=
  ⟨rfl, by decide,
   fresh_cache_read_is_passive freshWitnessState 1000 [sampleResult] rfl (by decide)⟩

/-- C1: for every state whose cache is stale (at each arrival time) with no
refresh in flight and the marker clear, a sequence of N ≥ 1 concurrent
`getCurrentTraffic` calls starts exactly one fetch batch: the fetch counter
rises by exactly one, every one of the N callers is recorded as awaiting the
single refresh operation started by the first call, and when that operation
settles successfully all N callers receive the same result set. -/
theorem getCurrentTraffic_dedupes_concurrent_stale_calls
    (s : ServerState) (t0 : Int) (ts : List Int)
    (results : List FetchResult) (nowD : JsDate)
    (hmarker : s.refreshPromise = none)
    (_hidle : s.inFlight = [])
    (hstale : ∀ t ∈ t0 :: ts, freshCheck s.cacheData s.lastUpdated t = false) :
    ((t0 :: ts).foldl getCurrentTrafficCall s).fetchCount = s.fetchCount + 1 ∧
    ((t0 :: ts).foldl getCurrentTrafficCall s).callers =
      s.callers ++ joinList s.nextCallerId s.nextRefreshId (ts.length + 1) ∧
    (∀ e ∈ joinList s.nextCallerId s.nextRefreshId (ts.length + 1),
       e.2 = CallerStatus.waitingOn s.nextRefreshId) ∧
    (refreshSettle ((t0 :: ts).foldl getCurrentTrafficCall s) s.nextRefreshId
        (RefreshOutcome.success results) nowD).callers =
      s.callers.map (resolveWaiter s.nextRefreshId (RefreshOutcome.success results)) ++
        resolvedList s.nextCallerId (RefreshOutcome.success results) (ts.length + 1) ∧
    (∀ e ∈ resolvedList s.nextCallerId (RefreshOutcome.success results) (ts.length + 1),
       e.2 = CallerStatus.resolved (RefreshOutcome.success results)) := by
  have hfr0 : freshCheck s.cacheData s.lastUpdated t0 = false :=
    hstale t0 (List.mem_cons_self t0 ts)
  have hstep : getCurrentTrafficCall s t0 =
      { s with refreshPromise := some s.nextRefreshId,
               inFlight := s.nextRefreshId :: s.inFlight,
               fetchCount := s.fetchCount + 1,
               nextRefreshId := s.nextRefreshId + 1,
               callers := s.callers ++ [(s.nextCallerId, CallerStatus.waitingOn s.nextRefreshId)],
               nextCallerId := s.nextCallerId + 1 } := by
    simp [getCurrentTrafficCall, hfr0, hmarker]
  have hfold := foldCalls_join ts
    { s with refreshPromise := some s.nextRefreshId,
             inFlight := s.nextRefreshId :: s.inFlight,
             fetchCount := s.fetchCount + 1,
             nextRefreshId := s.nextRefreshId + 1,
             callers := s.callers ++ [(s.nextCallerId, CallerStatus.waitingOn s.nextRefreshId)],
             nextCallerId := s.nextCallerId + 1 }
    s.nextRefreshId rfl
    (fun u hu => hstale u (List.mem_cons_of_mem t0 hu))
  have hfold' : (t0 :: ts).foldl getCurrentTrafficCall s =
      { s with refreshPromise := some s.nextRefreshId,
               inFlight := s.nextRefreshId :: s.inFlight,
               fetchCount := s.fetchCount + 1,
               nextRefreshId := s.nextRefreshId + 1,
               callers := s.callers ++ joinList s.nextCallerId s.nextRefreshId (ts.length + 1),
               nextCallerId := s.nextCallerId + (ts.length + 1) } := by
    rw [List.foldl_cons, hstep, hfold]
    simp [joinList, List.append_assoc, Nat.add_comm, Nat.add_assoc, Nat.add_left_comm]
  refine ⟨by rw [hfold'], by rw [hfold'], joinList_all_waiting _ _ _, ?_, resolvedList_all _ _ _⟩
  rw [hfold']
  rw [refreshSettle, if_pos (by exact List.mem_cons_self _ _)]
  simp only [List.map_append, joinList_map_resolve]

/-- Witness for C1: two concurrent stale calls on the initial (empty-cache)
state; one batch starts and both callers resolve with the same results. -/
theorem getCurrentTraffic_dedupes_witness :
    (initialState.refreshPromise = none) ∧
    (initialState.inFlight = []) ∧
    (∀ t ∈ [(0 : Int), 0],
       freshCheck initialState.cacheData initialState.lastUpdated t = false) ∧
    ((([(0 : Int), 0]).foldl getCurrentTrafficCall initialState).fetchCount =
        initialState.fetchCount + 1 ∧
     (([(0 : Int), 0]).foldl getCurrentTrafficCall initialState).callers =
        initialState.callers ++
          joinList initialState.nextCallerId initialState.nextRefreshId ([(0 : Int)].length + 1) ∧
     (∀ e ∈ joinList initialState.nextCallerId initialState.nextRefreshId ([(0 : Int)].length + 1),
        e.2 = CallerStatus.waitingOn initialState.nextRefreshId) ∧
     (refreshSettle (([(0 : Int), 0]).foldl getCurrentTrafficCall initialState)
         initialState.nextRefreshId (RefreshOutcome.success [sampleResult]) D0).callers =
        initialState.callers.map
            (resolveWaiter initialState.nextRefreshId (RefreshOutcome.success [sampleResult])) ++
          resolvedList initialState.nextCallerId
            (RefreshOutcome.success [sampleResult]) ([(0 : Int)].length + 1) ∧
     (∀ e ∈ resolvedList initialState.nextCallerId
          (RefreshOutcome.success [sampleResult]) ([(0 : Int)].length + 1),
        e.2 = CallerStatus.resolved (RefreshOutcome.success [sampleResult]))) :=
  ⟨rfl, rfl, by decide,
   getCurrentTraffic_dedupes_concurrent_stale_calls initialState 0 [0] [sampleResult] D0
     rfl rfl (by decide)⟩

/-- C2 counterexample: the claim says every refresh trigger shares the same
in-flight marker so that no second concurrent fetch batch can start.  But a
scheduler tick calls `refreshTrafficData()` directly: it starts a batch
(refresh 0 in flight) while leaving `trafficCache.refreshPromise` null, so a
stale read arriving during that window starts a second batch — two fetch
batches are then concurrently in flight. -/
theorem scheduler_bypasses_inflight_marker_cex :
    (schedulerTick initialState).fetchCount = 1 ∧
    (schedulerTick initialState).inFlight = [0] ∧
    (schedulerTick initialState).refreshPromise = none ∧
    (getCurrentTrafficCall (schedulerTick initialState) 0).fetchCount = 2 ∧
    (getCurrentTrafficCall (schedulerTick initialState) 0).inFlight = [1, 0] :=
  ⟨rfl, rfl, rfl, rfl, rfl⟩

/-- C2 (amended): read-triggered refreshes share one code path and one
in-flight marker — while `trafficCache.refreshPromise` is set, a
`getCurrentTraffic` call never starts another fetch batch (it returns cached
data or joins the marked refresh).  The periodic scheduler and the admin
force-refresh endpoint, however, invoke `refreshTrafficData()` directly: each
trigger starts a fetch batch without consulting or setting the marker. -/
theorem read_refreshes_share_marker (s : ServerState) (p : Nat) (t : Int)
    (hm : s.refreshPromise = some p) :
    (getCurrentTrafficCall s t).fetchCount = s.fetchCount ∧
    (getCurrentTrafficCall s t).inFlight = s.inFlight ∧
    (getCurrentTrafficCall s t).refreshPromise = s.refreshPromise ∧
    (schedulerTick s).refreshPromise = s.refreshPromise ∧
    (schedulerTick s).fetchCount = s.fetchCount + 1 ∧
    (adminForceRefresh s).refreshPromise = s.refreshPromise ∧
    (adminForceRefresh s).fetchCount = s.fetchCount + 1 := by
  by_cases hfr : freshCheck s.cacheData s.lastUpdated t = true
  · simp [getCurrentTrafficCall, hfr, schedulerTick, adminForceRefresh]
  · rw [Bool.not_eq_true] at hfr
    simp [getCurrentTrafficCall, hfr, hm, schedulerTick, adminForceRefresh]

/-- Witness for the amended C2 at a concrete state with a marked in-flight
read refresh. -/
theorem read_refreshes_share_marker_witness :
    (failWitnessState.refreshPromise = some 0) ∧
    ((getCurrentTrafficCall failWitnessState 0).fetchCount = failWitnessState.fetchCount ∧
     (getCurrentTrafficCall failWitnessState 0).inFlight = failWitnessState.inFlight ∧
     (getCurrentTrafficCall failWitnessState 0).refreshPromise = failWitnessState.refreshPromise ∧
     (schedulerTick failWitnessState).refreshPromise = failWitnessState.refreshPromise ∧
     (schedulerTick failWitnessState).fetchCount = failWitnessState.fetchCount + 1 ∧
     (adminForceRefresh failWitnessState).refreshPromise = failWitnessState.refreshPromise ∧
     (adminForceRefresh failWitnessState).fetchCount = failWitnessState.fetchCount + 1) :=
  ⟨rfl, read_refreshes_share_marker failWitnessState 0 0 rfl⟩

theorem rowFor_some (rows : List DbRow) (cid : String) (d h : Nat) (a : HeatRow)
    (hk : rowFor rows cid d h = some a) : a.day_of_week = d ∧ a.hour = h := by
  unfold rowFor at hk
  split at hk
  · cases hk
  · injection hk with h2
    subst h2
    exact ⟨rfl, rfl⟩

set_option maxRecDepth 8000 in
theorem allBucketKeys_nodup : allBucketKeys.Nodup := by decide

theorem find_heatRow (rows : List DbRow) (cid : String) (d h : Nat)
    (hd : d < 7) (hh : h < 24) :
    (getHeatmapData rows cid).find? (fun r => r.day_of_week == d && r.hour == h) =
      rowFor rows cid d h := by
  have hmem : (d, h) ∈ allBucketKeys := by
    simp only [allBucketKeys, List.mem_flatMap, List.mem_map, List.mem_range]
    exact ⟨d, hd, h, hh, rfl⟩
  have hnd : allBucketKeys.Nodup := allBucketKeys_nodup
  have hentry : ∀ (k : Nat × Nat) (a : HeatRow), rowFor rows cid k.1 k.2 = some a →
      ((a.day_of_week == d && a.hour == h) = true ↔ k = (d, h)) := by
    intro k a hk
    obtain ⟨hdw, hhr⟩ := rowFor_some rows cid k.1 k.2 a hk
    constructor
    · intro hp
      rw [Bool.and_eq_true, beq_iff_eq, beq_iff_eq] at hp
      exact Prod.ext_iff.mpr ⟨hdw.symm.trans hp.1, hhr.symm.trans hp.2⟩
    · intro hke
      rw [Bool.and_eq_true, beq_iff_eq, beq_iff_eq, hdw, hhr, hke]
      exact ⟨rfl, rfl⟩
  exact find?_filterMap_keyed (fun k => rowFor rows cid k.1 k.2)
    (fun r => r.day_of_week == d && r.hour == h) (d, h) hentry allBucketKeys hnd hmem

theorem flatMap_map_length {α β γ : Type} (f : α → β → γ) (ys : List β) (xs : List α) :
    (xs.flatMap fun a => ys.map fun b => f a b).length = xs.length * ys.length := by
  induction xs with
  | nil => simp
  | cons a xs ih => simp [ih, Nat.succ_mul, Nat.add_comm]

theorem getHistoricalData_heatmap_length (rows : List DbRow) (cid : String) :
    (getHistoricalData rows cid).heatmap.length = 168 := by
  simp [getHistoricalData,
        flatMap_map_length (fun (di : Nat × Nat) h => mkCell (getHeatmapData rows cid) di.1 di.2 h),
        hoursList, dayOrder]

theorem heatmap_getElem (rows : List DbRow) (cid : String) (i j : Nat)
    (hi : i < 7) (hj : j < 24) :
    (getHistoricalData rows cid).heatmap[i * 24 + j]? =
      some (mkCell (getHeatmapData rows cid) i (dayOrder.getD i 0) j) := by
  have hy : hoursList[j]? = some j := by
    simp [hoursList, List.getElem?_range, hj]
  have hx : dayOrder.enum[i]? = some (i, dayOrder.getD i 0) := by
    interval_cases i <;> rfl
  have h24 : hoursList.length = 24 := by simp [hoursList]
  have hmain := flatMap_map_getElem
    (fun (di : Nat × Nat) h => mkCell (getHeatmapData rows cid) di.1 di.2 h)
    hoursList dayOrder.enum i j (i, dayOrder.getD i 0) j hx hy
  rw [h24] at hmain
  simpa [getHistoricalData] using hmain

/-- C7: for every location id and every set of stored readings, the
historical aggregate has exactly 7 × 24 = 168 cells in Monday-first day
order: the cell at position `i * 24 + j` carries day label `dayNames[i]`
(Monday first), display index `i` and hour `j`; when the corresponding
`(storage-day, hour)` group (storage day `dayOrder[i]`) holds no readings the
cell has a null mean and zero sample count (it is present, not an error and
not omitted), and when it holds readings the cell's mean is the group average
rounded to the nearest integer with the group's size as sample count. -/
theorem getHistoricalData_buckets_complete
    (rows : List DbRow) (cid : String) (i j : Nat) (hi : i < 7) (hj : j < 24) :
    (getHistoricalData rows cid).heatmap.length = 168 ∧
    ∃ cell, (getHistoricalData rows cid).heatmap[i * 24 + j]? = some cell ∧
      cell.day = dayNames.getD i "" ∧
      cell.dayIndex = i ∧
      cell.hour = j ∧
      (bucketGroup rows cid (dayOrder.getD i 0) j = [] →
         cell.avgTime = none ∧ cell.sampleCount = 0) ∧
      (bucketGroup rows cid (dayOrder.getD i 0) j ≠ [] →
         cell.avgTime =
           some (roundHalfAwayFromZero (groupAvg (bucketGroup rows cid (dayOrder.getD i 0) j))) ∧
         cell.sampleCount = (bucketGroup rows cid (dayOrder.getD i 0) j).length) := by
  have hfind : (getHeatmapData rows cid).find?
      (fun r => r.day_of_week == dayOrder.getD i 0 && r.hour == j) =
      rowFor rows cid (dayOrder.getD i 0) j :=
    find_heatRow rows cid (dayOrder.getD i 0) j (by interval_cases i <;> decide) hj
  refine ⟨getHistoricalData_heatmap_length rows cid,
    mkCell (getHeatmapData rows cid) i (dayOrder.getD i 0) j,
    heatmap_getElem rows cid i j hi hj, rfl, rfl, rfl, ?_, ?_⟩
  · intro hempty
    have hcond : (bucketGroup rows cid (dayOrder.getD i 0) j).isEmpty = true := by
      rw [hempty]; rfl
    have h1 : rowFor rows cid (dayOrder.getD i 0) j = none := by
      unfold rowFor
      rw [if_pos hcond]
    constructor
    · simp only [mkCell]
      rw [hfind, h1]
      rfl
    · simp only [mkCell]
      rw [hfind, h1]
      rfl
  · intro hne
    have hie : (bucketGroup rows cid (dayOrder.getD i 0) j).isEmpty = false := by
      simpa [List.isEmpty_iff] using hne
    have h1 : rowFor rows cid (dayOrder.getD i 0) j =
        some { day_of_week := dayOrder.getD i 0, hour := j,
               avg_time := roundHalfAwayFromZero (groupAvg (bucketGroup rows cid (dayOrder.getD i 0) j)),
               sample_count := (bucketGroup rows cid (dayOrder.getD i 0) j).length } := by
      unfold rowFor
      rw [if_neg (show ¬((bucketGroup rows cid (dayOrder.getD i 0) j).isEmpty = true) from by
        rw [hie]; exact Bool.false_ne_true)]
    constructor
    · simp only [mkCell]
      rw [hfind, h1]
      rfl
    · simp only [mkCell]
      rw [hfind, h1]
      rfl

/-- Witness for C7: the empty store at bucket (0, 0) — present with null mean
and zero count. -/
theorem getHistoricalData_buckets_witness :
    (0 < 7) ∧ (0 < 24) ∧
    ((getHistoricalData [] "gwb-into").heatmap.length = 168 ∧
     ∃ cell, (getHistoricalData [] "gwb-into").heatmap[0 * 24 + 0]? = some cell ∧
       cell.day = dayNames.getD 0 "" ∧
       cell.dayIndex = 0 ∧
       cell.hour = 0 ∧
       (bucketGroup [] "gwb-into" (dayOrder.getD 0 0) 0 = [] →
          cell.avgTime = none ∧ cell.sampleCount = 0) ∧
       (bucketGroup [] "gwb-into" (dayOrder.getD 0 0) 0 ≠ [] →
          cell.avgTime =
            some (roundHalfAwayFromZero (groupAvg (bucketGroup [] "gwb-into" (dayOrder.getD 0 0) 0))) ∧
          cell.sampleCount = (bucketGroup [] "gwb-into" (dayOrder.getD 0 0) 0).length)) :=
  ⟨by decide, by decide,
   getHistoricalData_buckets_complete [] "gwb-into" 0 0 (by decide) (by decide)⟩

theorem find_crossing_none_iff (s : String) :
    (CROSSINGS.find? fun c => c.id == s).isNone = true ↔ s ∉ CROSSINGS.map (·.id) := by
  rw [Option.isNone_iff_eq_none, List.find?_eq_none]
  simp [List.mem_map, beq_iff_eq]

theorem postReading_spec (store : List DbRow) (cid : Option String)
    (wt : Option BodyVal) (nowD : JsDate) :
    ((postReading store cid wt nowD).1 = true ↔
      (∃ s, cid = some s ∧ s ∈ CROSSINGS.map (·.id)) ∧
      (∃ v, wt = some v ∧ v ≠ BodyVal.jnull ∧ (jsNumber v).den = 1 ∧
        0 ≤ jsNumber v ∧ jsNumber v ≤ 300)) ∧
    ((postReading store cid wt nowD).1 = true →
      ∃ s v, cid = some s ∧ wt = some v ∧
        (postReading store cid wt nowD).2 =
          store ++ [{ crossingId := s, waitTime := (jsNumber v).num,
                      recordedAt := nowD.localFields }]) ∧
    ((postReading store cid wt nowD).1 = false →
      (postReading store cid wt nowD).2 = store) := by
  cases cid with
  | none =>
    refine ⟨?_, ?_, fun _ => rfl⟩
    · simp [postReading]
    · intro h; simp [postReading] at h
  | some s =>
    by_cases hs0 : s = ""
    · subst hs0
      refine ⟨?_, ?_, fun _ => rfl⟩
      · constructor
        · intro h; simp [postReading] at h
        · rintro ⟨⟨s', hs', hmem⟩, -⟩
          rw [Option.some.injEq] at hs'
          subst hs'
          exact absurd hmem (by decide)
      · intro h; simp [postReading] at h
    · by_cases hfind : (CROSSINGS.find? fun c => c.id == s).isNone = true
      · have hnotmem : s ∉ CROSSINGS.map (·.id) := (find_crossing_none_iff s).mp hfind
        have hred : postReading store (some s) wt nowD = (false, store) := by
          simp only [postReading.eq_def, if_neg hs0, if_pos hfind]
        rw [hred]
        refine ⟨?_, ?_, fun _ => rfl⟩
        · constructor
          · intro h; simp at h
          · rintro ⟨⟨s', hs', hmem⟩, -⟩
            rw [Option.some.injEq] at hs'
            subst hs'
            exact absurd hmem hnotmem
        · intro h; simp at h
      · have hmem : s ∈ CROSSINGS.map (·.id) := by
          by_contra hnm
          exact hfind ((find_crossing_none_iff s).mpr hnm)
        cases wt with
        | none =>
          have hred : postReading store (some s) none nowD = (false, store) := by
            simp only [postReading.eq_def, if_neg hs0, if_neg hfind]
          rw [hred]
          refine ⟨?_, ?_, fun _ => rfl⟩
          · constructor
            · intro h; simp at h
            · rintro ⟨-, v, hv, -⟩
              cases hv
          · intro h; simp at h
        | some v =>
          cases v with
          | jnull =>
            have hred : postReading store (some s) (some BodyVal.jnull) nowD =
                (false, store) := by
              simp only [postReading.eq_def, if_neg hs0, if_neg hfind]
            rw [hred]
            refine ⟨?_, ?_, fun _ => rfl⟩
            · constructor
              · intro h; simp at h
              · rintro ⟨-, v', hv', hne, -⟩
                rw [Option.some.injEq] at hv'
                exact absurd hv'.symm hne
            · intro h; simp at h
          | num q =>
            have hred : postReading store (some s) (some (BodyVal.num q)) nowD =
                if ¬(q.den = 1) ∨ q < 0 ∨ q > 300 then (false, store)
                else (true, addReading store s q.num nowD) := by
              simp only [postReading.eq_def, if_neg hs0, if_neg hfind, jsNumber]
            by_cases hval : ¬(q.den = 1) ∨ q < 0 ∨ q > 300
            · rw [hred, if_pos hval]
              refine ⟨?_, ?_, fun _ => rfl⟩
              · constructor
                · intro h; simp at h
                · rintro ⟨-, v', hv', -, hden, h0, h300⟩
                  rw [Option.some.injEq] at hv'
                  subst hv'
                  rcases hval with h | h | h
                  · exact absurd hden h
                  · exact absurd h0 (not_le.mpr h)
                  · exact absurd h300 (not_le.mpr h)
              · intro h; simp at h
            · rw [hred, if_neg hval]
              push_neg at hval
              refine ⟨?_, ?_, ?_⟩
              · constructor
                · intro _
                  have hne : BodyVal.num q ≠ BodyVal.jnull := fun h => nomatch h
                  exact ⟨⟨s, rfl, hmem⟩, ⟨BodyVal.num q, rfl, hne, hval.1, hval.2.1, hval.2.2⟩⟩
                · intro _; rfl
              · intro _
                exact ⟨s, BodyVal.num q, rfl, rfl, rfl⟩
              · intro h; simp at h
          | boolean b =>
            have hred : postReading store (some s) (some (BodyVal.boolean b)) nowD =
                if ¬((if b then (1 : Rat) else 0).den = 1) ∨
                    (if b then (1 : Rat) else 0) < 0 ∨ (if b then (1 : Rat) else 0) > 300 then
                  (false, store)
                else (true, addReading store s (if b then (1 : Rat) else 0).num nowD) := by
              simp only [postReading.eq_def, if_neg hs0, if_neg hfind, jsNumber]
            have hval : ¬(¬((if b then (1 : Rat) else 0).den = 1) ∨
                (if b then (1 : Rat) else 0) < 0 ∨ (if b then (1 : Rat) else 0) > 300) := by
              cases b <;> decide
            rw [hred, if_neg hval]
            push_neg at hval
            refine ⟨?_, ?_, ?_⟩
            · constructor
              · intro _
                have hne : BodyVal.boolean b ≠ BodyVal.jnull := fun h => nomatch h
                exact ⟨⟨s, rfl, hmem⟩, ⟨BodyVal.boolean b, rfl, hne, hval.1, hval.2.1, hval.2.2⟩⟩
              · intro _; rfl
            · intro _
              exact ⟨s, BodyVal.boolean b, rfl, rfl, rfl⟩
            · intro h; simp at h

/-- C8 counterexample: the claim says ingestion rejects exactly when the
location id is invalid or the submitted wait time is not an integer in
[0, 300].  But the handler applies JS `Number()` to the body value before the
integrality check, so the boolean `true` — which is not an integer (not even
a number) — coerces to 1 and is accepted and stored. -/
theorem postReading_accepts_noninteger_cex :
    (postReading [] (some "gwb-into") (some (BodyVal.boolean true)) D0).1 = true ∧
    (postReading [] (some "gwb-into") (some (BodyVal.boolean true)) D0).2 =
      [{ crossingId := "gwb-into", waitTime := 1, recordedAt := D0.localFields }] ∧
    (∀ q : Rat, BodyVal.boolean true ≠ BodyVal.num q) :=
  ⟨rfl, rfl, fun _ h => nomatch h⟩

/-- C8 (amended): a manual reading is accepted exactly when the location id
is one of the six known ids and `Number(waitTime)` of the submitted value —
the identity on numbers, with booleans coercing to 0 or 1 and null rejected
earlier — is an integer in [0, 300]; on acceptance exactly that coerced
integer is stored, on rejection the store is untouched.  In particular the
numeric boundary values behave as the claim states: -1 and 301 are rejected
while 0 and 300 are accepted and stored. -/
theorem postReading_validation :
    (∀ (store : List DbRow) (cid : Option String) (wt : Option BodyVal) (nowD : JsDate),
      ((postReading store cid wt nowD).1 = true ↔
        (∃ s, cid = some s ∧ s ∈ CROSSINGS.map (·.id)) ∧
        (∃ v, wt = some v ∧ v ≠ BodyVal.jnull ∧ (jsNumber v).den = 1 ∧
          0 ≤ jsNumber v ∧ jsNumber v ≤ 300)) ∧
      ((postReading store cid wt nowD).1 = true →
        ∃ s v, cid = some s ∧ wt = some v ∧
          (postReading store cid wt nowD).2 =
            store ++ [{ crossingId := s, waitTime := (jsNumber v).num,
                        recordedAt := nowD.localFields }]) ∧
      ((postReading store cid wt nowD).1 = false →
        (postReading store cid wt nowD).2 = store)) ∧
    (postReading [] (some "gwb-into") (some (BodyVal.num (-1))) D0).1 = false ∧
    (postReading [] (some "gwb-into") (some (BodyVal.num 301)) D0).1 = false ∧
    (postReading [] (some "gwb-into") (some (BodyVal.num 0)) D0) =
      (true, [{ crossingId := "gwb-into", waitTime := 0, recordedAt := D0.localFields }]) ∧
    (postReading [] (some "gwb-into") (some (BodyVal.num 300)) D0) =
      (true, [{ crossingId := "gwb-into", waitTime := 300, recordedAt := D0.localFields }]) :=
  ⟨fun store cid wt nowD => postReading_spec store cid wt nowD,
   by decide, by decide, by decide, by decide⟩

/-- C9 counterexample: the claim says each synthesized placeholder entry is
tagged so the caller can distinguish real from placeholder data.  No field
does: the mock entry for the first crossing with delay draw 2 (wait time 12)
is identical, field for field, to the entry the configured path renders for a
genuinely fetched result with wait time 12 and the same timestamps. -/
theorem mock_entry_untagged_cex :
    mockEntry (CROSSINGS.get ⟨0, by decide⟩) 2 0 =
      renderEntry (some D0) 0 [sampleResult] (CROSSINGS.get ⟨0, by decide⟩) := by
  decide

/-- C9 (amended): whenever the adapter is unconfigured, serving
`/api/crossings` never reaches the fetch path — the server state (cache,
store, fetch counter) is returned untouched — and the response is six
synthesized entries whose wait times all lie in the documented 10-40 minute
range.  The entries carry no distinguishing tag (see the counterexample):
only the separate stats endpoint's configuration flag tells placeholder mode
apart. -/
theorem unconfigured_mock_bounded (apiKey : Option String) (rand : Nat → Nat)
    (now : Int) (s : ServerState)
    (hk : isConfigured apiKey = false) (hr : ∀ i, rand i ≤ 30) :
    (handleCrossings apiKey rand now s).2 = s ∧
    ∃ entries, (handleCrossings apiKey rand now s).1 = some entries ∧
      entries.length = 6 ∧
      ∀ e ∈ entries, ∃ w : Int, e.waitTime = WaitField.mins w ∧ 10 ≤ w ∧ w ≤ 40 := by
  have hred : handleCrossings apiKey rand now s = (some (mockCrossings rand now), s) := by
    rw [handleCrossings, if_pos hk]
  rw [hred]
  refine ⟨rfl, mockCrossings rand now, rfl, by simp [mockCrossings, CROSSINGS], ?_⟩
  intro e he
  rcases List.mem_map.mp he with ⟨ic, hic, rfl⟩
  refine ⟨10 + (rand ic.1 : Int), rfl, by omega, ?_⟩
  have hb := hr ic.1
  omega

/-- Witness for the amended C9 with the zero randomness source. -/
theorem unconfigured_mock_bounded_witness :
    (isConfigured none = false) ∧ (∀ i : Nat, (fun _ : Nat => 0) i ≤ 30) ∧
    ((handleCrossings none (fun _ => 0) 0 initialState).2 = initialState ∧
     ∃ entries, (handleCrossings none (fun _ => 0) 0 initialState).1 = some entries ∧
       entries.length = 6 ∧
       ∀ e ∈ entries, ∃ w : Int, e.waitTime = WaitField.mins w ∧ 10 ≤ w ∧ w ≤ 40) :=
  ⟨rfl, fun _ => Nat.zero_le 30,
   unconfigured_mock_bounded none (fun _ => 0) 0 initialState rfl (fun _ => Nat.zero_le 30)⟩

/-- C10: when the adapter is unconfigured, serving a current-crossings
request writes nothing to the reading store and mutates no field of the
traffic cache: the whole server state is returned unchanged, the synthesized
entries go to the caller only, and the historical aggregate computed from the
store afterwards is exactly the one computed before — no placeholder value
ever appears as a persisted reading or in the aggregate. -/
theorem unconfigured_crossings_no_writes (apiKey : Option String) (rand : Nat → Nat)
    (now : Int) (s : ServerState) (cid : String) (hk : isConfigured apiKey = false) :
    (handleCrossings apiKey rand now s).2 = s ∧
    (handleCrossings apiKey rand now s).2.store = s.store ∧
    (handleCrossings apiKey rand now s).2.cacheData = s.cacheData ∧
    (handleCrossings apiKey rand now s).2.lastUpdated = s.lastUpdated ∧
    (handleCrossings apiKey rand now s).2.refreshPromise = s.refreshPromise ∧
    getHistoricalData (handleCrossings apiKey rand now s).2.store cid =
      getHistoricalData s.store cid := by
  have h2 : (handleCrossings apiKey rand now s).2 = s := by
    rw [handleCrossings, if_pos hk]
  exact ⟨h2, by rw [h2], by rw [h2], by rw [h2], by rw [h2], by rw [h2]⟩

/-- Witness for C10 at the unconfigured initial state. -/
theorem unconfigured_crossings_no_writes_witness :
    (isConfigured none = false) ∧
    ((handleCrossings none (fun _ => 0) 0 initialState).2 = initialState ∧
     (handleCrossings none (fun _ => 0) 0 initialState).2.store = initialState.store ∧
     (handleCrossings none (fun _ => 0) 0 initialState).2.cacheData = initialState.cacheData ∧
     (handleCrossings none (fun _ => 0) 0 initialState).2.lastUpdated = initialState.lastUpdated ∧
     (handleCrossings none (fun _ => 0) 0 initialState).2.refreshPromise = initialState.refreshPromise ∧
     getHistoricalData (handleCrossings none (fun _ => 0) 0 initialState).2.store "gwb-into" =
       getHistoricalData initialState.store "gwb-into") :=
  ⟨rfl, unconfigured_crossings_no_writes none (fun _ => 0) 0 initialState "gwb-into" rfl⟩
